import Mathlib

/-!
LuminanceHDR: exposure items and the Pattanaik00 tone-mapping driver

A shallow embedding of

* `HdrCreationItem` (src/HdrWizard/HdrCreationManager.h): the average
  luminance / EV accessors of an exposure item;
* `multiplyChannels` and `pfstmo_pattanaik00`
  (src/TonemappingOperators/pattanaik00/pfstmo_pattanaik00.cpp).

The `float` field of `HdrCreationItem` is read twice: as an exact real
(`std::pow` and `log2` become `Real.rpow` and `Real.logb 2`) for the EV round
trip, and as a float that may be NaN or infinite for the invariant on the stored
luminance.  The pixel values handled by the tone-mapping driver are elements of
an arbitrary field `F` with decidable equality: the driver only multiplies them,
compares the multiplier with one and forms `1/fps`.
-/

namespace LuminanceHDR

/-! ## HdrCreationItem -/

/-- The data members of `HdrCreationItem` that the luminance accessors touch.
The frame pointer and the thumbnail are never read or written by them. -/
structure HdrCreationItem where
  m_filename : String
  m_averageLuminance : ℝ

namespace HdrCreationItem

/-- Source: `bool hasAverageLuminance() const { return (m_averageLuminance != -1.f); }` -/
def hasAverageLuminance (it : HdrCreationItem) : Prop :=
  it.m_averageLuminance ≠ -1

/-- Source: `void setAverageLuminance(float avl) { m_averageLuminance = avl; }` -/
def setAverageLuminance (it : HdrCreationItem) (avl : ℝ) : HdrCreationItem :=
  { it with m_averageLuminance := avl }

/-- Source: `float getAverageLuminance() const { return m_averageLuminance; }` -/
def getAverageLuminance (it : HdrCreationItem) : ℝ :=
  it.m_averageLuminance

/-- Source: `bool hasEV() const { return hasAverageLuminance(); }` -/
def hasEV (it : HdrCreationItem) : Prop :=
  it.hasAverageLuminance

/-- Source: `void setEV(float ev) { m_averageLuminance = std::pow(2.f, ev); }` -/
noncomputable def setEV (it : HdrCreationItem) (ev : ℝ) : HdrCreationItem :=
  { it with m_averageLuminance := (2 : ℝ) ^ ev }

/-- Source: `float getEV() const { return log2(m_averageLuminance); }` -/
noncomputable def getEV (it : HdrCreationItem) : ℝ :=
  Real.logb 2 it.m_averageLuminance

end HdrCreationItem

/-! ## HdrCreationItem, float reading

The same accessors with the luminance field read as a float that may be NaN or
infinite, for the properties that depend on how comparisons treat NaN. -/

namespace FloatReading

/-- A `float` as the luminance accessors tell values apart: NaN, or a point of
the extended real line (`⊤` and `⊥` are the two infinities).  Rounding of finite
values is left out. -/
inductive FloatValue where
  | nan
  | num (x : EReal)

namespace FloatValue

/-- The comparison `a != b` of two floats: true as soon as one side is NaN. -/
def ne : FloatValue → FloatValue → Prop
  | num x, num y => x ≠ y
  | _, _ => True

/-- The comparison `a <= b` of two floats: false as soon as one side is NaN. -/
def le : FloatValue → FloatValue → Prop
  | num x, num y => x ≤ y
  | _, _ => False

/-- Source: `std::pow(2.f, ev)`: NaN for NaN, zero for minus infinity, infinity
for infinity, `2^ev` for a finite `ev`. -/
noncomputable def pow2 : FloatValue → FloatValue
  | nan => nan
  | num x =>
    num (if x = ⊥ then 0 else if x = ⊤ then ⊤ else (((2 : ℝ) ^ x.toReal : ℝ) : EReal))

end FloatValue

/-- The luminance field of `HdrCreationItem` read as a float that may be NaN or
infinite. -/
structure HdrCreationItem where
  m_filename : String
  m_averageLuminance : FloatValue

namespace HdrCreationItem

/-- Source: `bool hasAverageLuminance() const { return (m_averageLuminance != -1.f); }` -/
def hasAverageLuminance (it : HdrCreationItem) : Prop :=
  it.m_averageLuminance.ne (.num (-1))

/-- Source: `void setAverageLuminance(float avl) { m_averageLuminance = avl; }` -/
def setAverageLuminance (it : HdrCreationItem) (avl : FloatValue) : HdrCreationItem :=
  { it with m_averageLuminance := avl }

/-- Source: `void setEV(float ev) { m_averageLuminance = std::pow(2.f, ev); }` -/
noncomputable def setEV (it : HdrCreationItem) (ev : FloatValue) : HdrCreationItem :=
  { it with m_averageLuminance := ev.pow2 }

/-- One call of a public mutator of the luminance field. -/
inductive Call where
  | setAverageLuminance (avl : FloatValue)
  | setEV (ev : FloatValue)

/-- Effect of one mutator call. -/
noncomputable def Call.apply (it : HdrCreationItem) : Call → HdrCreationItem
  | .setAverageLuminance avl => it.setAverageLuminance avl
  | .setEV ev => it.setEV ev

/-- Effect of a sequence of mutator calls, first call first. -/
noncomputable def run (it : HdrCreationItem) (cs : List Call) : HdrCreationItem :=
  cs.foldl Call.apply it

/-- The data-model invariant: exactly one of "average luminance unset" and
"average luminance is non-negative" holds. -/
def ExactlyOne (it : HdrCreationItem) : Prop :=
  (¬ it.hasAverageLuminance ∧ ¬ FloatValue.le (.num 0) it.m_averageLuminance) ∨
  (it.hasAverageLuminance ∧ FloatValue.le (.num 0) it.m_averageLuminance)

/-- A call whose argument keeps the invariant: `setEV` with an argument other
than NaN, `setAverageLuminance` with the sentinel or a non-negative value. -/
def Call.Admissible : Call → Prop
  | .setAverageLuminance avl => avl = .num (-1) ∨ FloatValue.le (.num 0) avl
  | .setEV ev => ev ≠ .nan

end HdrCreationItem

end FloatReading

/-! ## Libpfs objects used by the tone-mapping driver -/

/-- Value held by a C++ `int` (32 bits, two's complement) after the integer `n`
is stored in it. -/
def toInt32 (n : Int) : Int :=
  (n + 2147483648) % 4294967296 - 2147483648

/-- A `pfs::Array2Df`: `cols * rows` values stored row after row.  The storage
is kept as a separate list so that an array whose storage is shorter than the
index bound used by a caller can be expressed. -/
structure Array2Df (F : Type) where
  cols : Nat
  rows : Nat
  data : List F
  deriving DecidableEq

namespace Array2Df

variable {F : Type}

/-- Source: `getCols()` -/
def getCols (A : Array2Df F) : Nat := A.cols

/-- Source: `getRows()` -/
def getRows (A : Array2Df F) : Nat := A.rows

/-- Source: `pfs::Array2Df R(w,h)`: a fresh `w` by `h` array. -/
def create [Zero F] (w h : Int) : Array2Df F :=
  ⟨w.toNat, h.toNat, List.replicate (w.toNat * h.toNat) 0⟩

/-- Source: `A(i) *= mult` through the linear index operator: `none` when `i` lies
outside the storage (an out-of-bounds access). -/
def mulAt [Mul F] (A : Array2Df F) (i : Nat) (mult : F) : Option (Array2Df F) :=
  match A.data.get? i with
  | none => none
  | some v => some { A with data := A.data.set i (v * mult) }

/-- The array with every stored value multiplied by `mult`. -/
def scaled [Mul F] (A : Array2Df F) (mult : F) : Array2Df F :=
  { A with data := A.data.map (fun v => v * mult) }

/-- The storage holds exactly `cols * rows` values. -/
def StorageOk (A : Array2Df F) : Prop :=
  A.data.length = A.cols * A.rows

instance (A : Array2Df F) : Decidable A.StorageOk :=
  inferInstanceAs (Decidable (A.data.length = A.cols * A.rows))

end Array2Df

/-- A `pfs::Channel`: a named plane of pixel values. -/
structure Channel (F : Type) where
  name : String
  data : Array2Df F
  deriving DecidableEq

namespace Channel

variable {F : Type}

/-- Source: `getChannelData()` -/
def getChannelData (c : Channel F) : Array2Df F := c.data

/-- Source: `getWidth()` -/
def getWidth (c : Channel F) : Nat := c.data.cols

/-- Source: `getHeight()` -/
def getHeight (c : Channel F) : Nat := c.data.rows

end Channel

/-- Modelled from the spec: `pfs::TagContainer` (Libpfs, not among the sources),
"a tag map (string key → string value)", kept as an association list in which
a key occurs at most once after `setString`. -/
abbrev TagContainer := List (String × String)

namespace TagContainer

/-- Source: `setString(key, value)`: the key is bound to the value, any earlier binding
of the key is dropped, other keys are untouched. -/
def setString (t : TagContainer) (key value : String) : TagContainer :=
  (key, value) :: t.filter (fun p => p.1 != key)

/-- Source: `getString(key)`: the value bound to the key, if any. -/
def getString (t : TagContainer) (key : String) : Option String :=
  (t.find? (fun p => p.1 == key)).map (fun p => p.2)

end TagContainer

/-- A `pfs::Frame` as the driver sees it: the three pointers handed out by
`getXYZChannels` (`none` for `NULL`) and the tag container. -/
structure Frame (F : Type) where
  X : Option (Channel F)
  Y : Option (Channel F)
  Z : Option (Channel F)
  tags : TagContainer
  deriving DecidableEq

/-- The frame invariant of the data model on the three channels: identical
width and height, and every channel stores `cols * rows` values. -/
def SameSize {F : Type} (X Y Z : Array2Df F) : Prop :=
  (X.cols = Y.cols ∧ X.rows = Y.rows) ∧ (Z.cols = Y.cols ∧ Z.rows = Y.rows) ∧
  X.StorageOk ∧ Y.StorageOk ∧ Z.StorageOk

instance {F : Type} (X Y Z : Array2Df F) : Decidable (SameSize X Y Z) :=
  inferInstanceAs (Decidable (_ ∧ _))

/-- Modelled from the spec: `pfs::Progress` (Libpfs, not among the sources), the
handle through which an operator reports progress values and reads the
cancellation flag.  `reported` lists the values passed to `setValue`, oldest
first. -/
structure Progress where
  cancelFlag : Bool
  reported : List Int
  deriving DecidableEq

namespace Progress

/-- Source: `canceled()` -/
def canceled (ph : Progress) : Bool := ph.cancelFlag

/-- Source: `setValue(v)` -/
def setValue (ph : Progress) (v : Int) : Progress :=
  { ph with reported := ph.reported ++ [v] }

end Progress

/-- The two colour spaces named by the driver. -/
inductive ColorSpace where
  | CS_XYZ
  | CS_RGB
  deriving DecidableEq

/-- The routines the driver calls that live outside the two source files
(`tmo_pattanaik00.h`, `Libpfs/colorspace`), taken as parameters.  `VAM` is the
state of a `VisualAdaptationModel`. -/
structure Externals (F : Type) (VAM : Type) where
  /-- Source: `new VisualAdaptationModel()` -/
  newModel : VAM
  /-- Source: `am->setAdaptation(Acone, Arod)` -/
  setAdaptation : VAM → F → F → VAM
  /-- Source: `am->setAdaptation(Yr)` -/
  setAdaptationLum : VAM → Array2Df F → VAM
  /-- Source: `am->calculateAdaptation(Yr, dt)` -/
  calculateAdaptation : VAM → Array2Df F → F → VAM
  /-- Source: `pfs::transformColorSpace(inCS, in1, in2, in3, outCS, out1, out2, out3)`:
  the new contents of the three output arrays. -/
  transformColorSpace : ColorSpace → Array2Df F → Array2Df F → Array2Df F →
    ColorSpace → Array2Df F → Array2Df F → Array2Df F →
    Array2Df F × Array2Df F × Array2Df F
  /-- Source: `tmo_pattanaik00(R, G, B, Y, am, local, ph)`: the new contents of `R`, `G`,
  `B` and the state of the progress handle afterwards. -/
  tmo_pattanaik00 : Array2Df F → Array2Df F → Array2Df F → Array2Df F → VAM → Bool →
    Progress → Array2Df F × Array2Df F × Array2Df F × Progress

/-- How a call of the driver ends. -/
inductive Outcome (F : Type) where
  /-- normal return, with the frame and the progress handle as left behind -/
  | returned (frame : Frame F) (ph : Progress)
  /-- a `pfs::Exception` with the given message, with the frame and the handle
  as they are when it is thrown -/
  | thrown (what : String) (frame : Frame F) (ph : Progress)
  /-- an element access outside an array's storage -/
  | outOfBounds
  deriving DecidableEq

/-! ## pfstmo_pattanaik00.cpp -/

section Driver

variable {F : Type} [Field F] [DecidableEq F] {VAM : Type}

/-- The `for` loop of `multiplyChannels`: `n` iterations are left, `i` is the
loop index. -/
def multiplyChannelsLoop (mult : F) :
    Nat → Nat → Array2Df F → Array2Df F → Array2Df F →
      Option (Array2Df F × Array2Df F × Array2Df F)
  | 0, _, X, Y, Z => some (X, Y, Z)
  | n + 1, i, X, Y, Z =>
    match X.mulAt i mult with
    | none => none
    | some X1 =>
      match Y.mulAt i mult with
      | none => none
      | some Y1 =>
        match Z.mulAt i mult with
        | none => none
        | some Z1 => multiplyChannelsLoop mult n (i + 1) X1 Y1 Z1

/-- Source: `multiplyChannels(X, Y, Z, mult)`: `size` is an `int` computed from `Y` only;
the loop runs for `i = 0 .. size-1` (not at all when `size <= 0`). -/
def multiplyChannels (X Y Z : Array2Df F) (mult : F) :
    Option (Array2Df F × Array2Df F × Array2Df F) :=
  let size : Int := toInt32 ((Y.getCols : Int) * (Y.getRows : Int))
  multiplyChannelsLoop mult size.toNat 0 X Y Z

/-- Lines 96-98: `if ( multiplier != 1.0f ) multiplyChannels(Xr, Yr, Zr, multiplier);` -/
def preScale (Xr Yr Zr : Array2Df F) (multiplier : F) :
    Option (Array2Df F × Array2Df F × Array2Df F) :=
  if multiplier ≠ 1 then multiplyChannels Xr Yr Zr multiplier else some (Xr, Yr, Zr)

/-- Lines 100-111: the adaptation model after the nested `if` on `local`,
`timedependence` and `autolum`. -/
def adaptationModel (lib : Externals F VAM) (timedependence : Bool) (fps : F)
    (am : VAM) (local_ : Bool) (Acone Arod : F) (autolum : Bool) (Yr : Array2Df F) : VAM :=
  if !local_ then
    if !timedependence then
      if !autolum then lib.setAdaptation am Acone Arod
      else lib.setAdaptationLum am Yr
    else lib.calculateAdaptation am Yr (1 / fps)
  else am

/-- Lines 112-127: colour-space round trip around `tmo_pattanaik00`, written
back into the frame's channels, then the final progress report. -/
def toneMap (lib : Externals F VAM) (frame : Frame F) (X Y Z : Channel F)
    (Xr Yr Zr : Array2Df F) (am : VAM) (local_ : Bool) (ph : Progress) : Outcome F :=
  let w : Int := toInt32 (Y.getWidth : Int)
  let h : Int := toInt32 (Y.getHeight : Int)
  let R : Array2Df F := Array2Df.create w h
  let G : Array2Df F := Array2Df.create w h
  let B : Array2Df F := Array2Df.create w h
  let rgb := lib.transformColorSpace .CS_XYZ Xr Yr Zr .CS_RGB R G B
  let out := lib.tmo_pattanaik00 rgb.1 rgb.2.1 rgb.2.2 Yr am local_ ph
  let xyz := lib.transformColorSpace .CS_RGB out.1 out.2.1 out.2.2.1 .CS_XYZ Xr Yr Zr
  let ph1 := out.2.2.2
  let ph2 := if !ph1.canceled then ph1.setValue 100 else ph1
  .returned
    { frame with
      X := some { X with data := xyz.1 }
      Y := some { Y with data := xyz.2.1 }
      Z := some { Z with data := xyz.2.2 } }
    ph2

/-- The body of `pfstmo_pattanaik00` with its two local constants
`timedependence` and `fps` as arguments. -/
def pfstmo_pattanaik00_with (lib : Externals F VAM) (timedependence : Bool) (fps : F)
    (frame : Frame F) (local_ : Bool) (multiplier Acone Arod : F) (autolum : Bool)
    (ph : Progress) : Outcome F :=
  let am := lib.newModel
  let frame1 := { frame with tags := frame.tags.setString "LUMINANCE" "RELATIVE" }
  match frame.X, frame.Y, frame.Z with
  | some X, some Y, some Z =>
    match preScale X.getChannelData Y.getChannelData Z.getChannelData multiplier with
    | none => .outOfBounds
    | some (Xr, Yr, Zr) =>
      toneMap lib frame1 X Y Z Xr Yr Zr
        (adaptationModel lib timedependence fps am local_ Acone Arod autolum Yr) local_ ph
  | _, _, _ => .thrown "Missing X, Y, Z channels in the PFS stream" frame1 ph

/-- Source: `pfstmo_pattanaik00(frame, local, multiplier, Acone, Arod, autolum, ph)`:
`bool timedependence = false; float fps = 16.0f;`. -/
def pfstmo_pattanaik00 (lib : Externals F VAM) (frame : Frame F) (local_ : Bool)
    (multiplier Acone Arod : F) (autolum : Bool) (ph : Progress) : Outcome F :=
  pfstmo_pattanaik00_with lib false 16 frame local_ multiplier Acone Arod autolum ph

end Driver

/-! ## A concrete instance over the rationals -/

/-- A `VisualAdaptationModel` that only remembers how its adaptation was set. -/
inductive TraceModel where
  | fresh
  | explicit (Acone Arod : ℚ)
  | fromLuminance (Y : Array2Df ℚ)
  | timeDependent (Y : Array2Df ℚ) (dt : ℚ)
  deriving DecidableEq

/-- Externals over `ℚ`: the colour transform copies its inputs to its outputs,
the tone mapper leaves `R`, `G`, `B` alone and reports the value 50. -/
def traceLib : Externals ℚ TraceModel where
  newModel := .fresh
  setAdaptation := fun _ a r => .explicit a r
  setAdaptationLum := fun _ Y => .fromLuminance Y
  calculateAdaptation := fun _ Y dt => .timeDependent Y dt
  transformColorSpace := fun _ a b c _ _ _ _ => (a, b, c)
  tmo_pattanaik00 := fun R G B _ _ _ ph => (R, G, B, ph.setValue 50)

/-- A 2 by 1 channel. -/
def plane (name : String) (a b : ℚ) : Channel ℚ :=
  ⟨name, ⟨2, 1, [a, b]⟩⟩

/-- A frame with three 2 by 1 channels and one tag. -/
def frameXYZ : Frame ℚ :=
  ⟨some (plane "X" 1 2), some (plane "Y" 3 4), some (plane "Z" 5 6), [("FILE", "a.hdr")]⟩

/-- The same frame without its Z channel. -/
def frameXY : Frame ℚ :=
  { frameXYZ with Z := none }

/-- A progress handle on which nothing was reported and no cancellation asked. -/
def ph0 : Progress := ⟨false, []⟩

/-- A 65536 by 32768 plane of ones: `2^31` values, one more than the largest
`int`. -/
def widePlane : Array2Df ℚ :=
  ⟨65536, 32768, List.replicate 2147483648 1⟩

/-- A frame whose three channels are 65536 by 32768 planes of ones. -/
def wideFrame : Frame ℚ :=
  ⟨some ⟨"X", widePlane⟩, some ⟨"Y", widePlane⟩, some ⟨"Z", widePlane⟩, []⟩

/-! ### Theorems on HdrCreationItem -/

namespace HdrCreationItem

theorem setEV_luminance_pos (it : HdrCreationItem) (ev : ℝ) :
    0 < (it.setEV ev).m_averageLuminance := by
  show (0 : ℝ) < (2 : ℝ) ^ ev
  exact Real.rpow_pos_of_pos (by norm_num) ev

/-- C1: for every exposure value `ev`, `setEV(ev)` followed by `getEV()` gives
`ev` back, over exact real arithmetic (the stored luminance is `2^ev`). -/
theorem getEV_setEV (it : HdrCreationItem) (ev : ℝ) :
    (it.setEV ev).getEV = ev ∧ (it.setEV ev).getAverageLuminance = (2 : ℝ) ^ ev := by
  refine ⟨?_, rfl⟩
  show Real.logb 2 ((2 : ℝ) ^ ev) = ev
  exact Real.logb_rpow (by norm_num) (by norm_num)

end HdrCreationItem

/-! ### Theorems on HdrCreationItem, float reading -/

namespace FloatReading

namespace HdrCreationItem

theorem neg_one_lt_zero : ((-1 : EReal) < 0) := by
  have : (((-1 : ℝ) : EReal) < ((0 : ℝ) : EReal)) := EReal.coe_lt_coe_iff.mpr (by norm_num)
  simpa using this

theorem pow2_nonneg (x : EReal) : ∃ y, FloatValue.pow2 (.num x) = .num y ∧ 0 ≤ y := by
  refine ⟨_, rfl, ?_⟩
  by_cases hb : x = ⊥
  · rw [if_pos hb]
  · rw [if_neg hb]
    by_cases ht : x = ⊤
    · rw [if_pos ht]; exact le_top
    · rw [if_neg ht]
      exact EReal.coe_nonneg.mpr (le_of_lt (Real.rpow_pos_of_pos (by norm_num) _))

theorem exactlyOne_iff (it : HdrCreationItem) :
    it.ExactlyOne ↔
      (it.m_averageLuminance = .num (-1) ∨ FloatValue.le (.num 0) it.m_averageLuminance) := by
  obtain ⟨f, m⟩ := it
  cases m with
  | nan =>
    simp [ExactlyOne, hasAverageLuminance, FloatValue.ne, FloatValue.le]
  | num x =>
    simp only [ExactlyOne, hasAverageLuminance, FloatValue.ne, FloatValue.le,
      FloatValue.num.injEq]
    constructor
    · rintro (⟨h, -⟩ | ⟨-, h⟩)
      · left; exact not_not.mp h
      · right; exact h
    · rintro (h | h)
      · left
        refine ⟨not_not.mpr h, ?_⟩
        rw [h]
        exact not_le.mpr neg_one_lt_zero
      · right
        refine ⟨?_, h⟩
        intro h1
        rw [h1] at h
        exact absurd h (not_le.mpr neg_one_lt_zero)

theorem apply_exactlyOne (it : HdrCreationItem) (c : Call) (hc : c.Admissible) :
    (c.apply it).ExactlyOne := by
  rw [exactlyOne_iff]
  cases c with
  | setAverageLuminance avl => exact hc
  | setEV ev =>
    cases ev with
    | nan => exact absurd rfl hc
    | num x =>
      obtain ⟨y, hy, h0⟩ := pow2_nonneg x
      right
      show FloatValue.le (.num 0) (FloatValue.pow2 (.num x))
      rw [hy]
      exact h0

theorem run_exactlyOne_of_start (it : HdrCreationItem) (cs : List Call)
    (h0 : it.ExactlyOne) (hcs : ∀ c ∈ cs, c.Admissible) :
    (run it cs).ExactlyOne := by
  induction cs generalizing it with
  | nil => exact h0
  | cons c cs ih =>
    show (run (c.apply it) cs).ExactlyOne
    exact ih (c.apply it) (apply_exactlyOne it c (hcs c (List.mem_cons_self c cs)))
      (fun d hd => hcs d (List.mem_cons_of_mem c hd))

/-- The float reading agrees with `2 ^ ev` on finite arguments. -/
theorem setEV_finite (it : HdrCreationItem) (ev : ℝ) :
    (it.setEV (.num (ev : EReal))).m_averageLuminance = .num (((2 : ℝ) ^ ev : ℝ) : EReal) := by
  show FloatValue.pow2 (.num (ev : EReal)) = _
  unfold FloatValue.pow2
  simp

/-- After `setEV(NaN)` the luminance is NaN: it counts as set and is not
non-negative, so neither alternative holds. -/
theorem setEV_nan_neither (it : HdrCreationItem) :
    (it.setEV .nan).hasAverageLuminance ∧
    ¬ FloatValue.le (.num 0) (it.setEV .nan).m_averageLuminance ∧
    ¬ (it.setEV .nan).ExactlyOne := by
  refine ⟨trivial, fun h => h, ?_⟩
  rw [exactlyOne_iff]
  rintro (h | h)
  · cases h
  · exact h

/-- C2 (as stated, refuted): after `setAverageLuminance(-5)` the luminance is
neither unset nor non-negative, so the exactly-one property fails. -/
theorem exactlyOne_fails_after_negative_luminance :
    ¬ (run ⟨"a.jpg", .num (-1)⟩ [Call.setAverageLuminance (.num ((-5 : ℝ) : EReal))]).ExactlyOne := by
  rw [exactlyOne_iff]
  show ¬ (FloatValue.num ((-5 : ℝ) : EReal) = .num (-1) ∨
    FloatValue.le (.num 0) (.num ((-5 : ℝ) : EReal)))
  rintro (h | h)
  · have h1 : (((-5 : ℝ) : EReal)) = ((-1 : ℝ) : EReal) := by
      simpa using FloatValue.num.inj h
    have h2 := EReal.coe_eq_coe_iff.mp h1
    norm_num at h2
  · have h1 : ((0 : ℝ) : EReal) ≤ ((-5 : ℝ) : EReal) := by simpa [FloatValue.le] using h
    have h2 := EReal.coe_le_coe_iff.mp h1
    norm_num at h2

/-- C2 (amended): every state reached by a non-empty sequence of `setEV` calls
whose argument is not NaN and `setAverageLuminance` calls whose argument is `-1`
or non-negative satisfies the exactly-one property; so does the state reached by
any such sequence from an item that already satisfies it. -/
theorem run_exactlyOne (it : HdrCreationItem) (cs : List Call)
    (h0 : it.ExactlyOne ∨ cs ≠ []) (hcs : ∀ c ∈ cs, c.Admissible) :
    (run it cs).ExactlyOne := by
  cases cs with
  | nil =>
    rcases h0 with h | h
    · exact h
    · exact absurd rfl h
  | cons c cs =>
    show (run (c.apply it) cs).ExactlyOne
    exact run_exactlyOne_of_start (c.apply it) cs
      (apply_exactlyOne it c (hcs c (List.mem_cons_self c cs)))
      (fun d hd => hcs d (List.mem_cons_of_mem c hd))

/-- Witness of `run_exactlyOne`: an item with a NaN luminance, then `setEV(3)`,
`setEV(inf)`, `setAverageLuminance(0)`. -/
theorem run_exactlyOne_witness :
    ((⟨"a.jpg", .nan⟩ : HdrCreationItem).ExactlyOne ∨
      [Call.setEV (.num 3), Call.setEV (.num ⊤), Call.setAverageLuminance (.num 0)] ≠ []) ∧
    (∀ c ∈ [Call.setEV (.num 3), Call.setEV (.num ⊤), Call.setAverageLuminance (.num 0)],
      c.Admissible) ∧
    (run ⟨"a.jpg", .nan⟩
      [Call.setEV (.num 3), Call.setEV (.num ⊤), Call.setAverageLuminance (.num 0)]).ExactlyOne :=
  have h0 : (⟨"a.jpg", .nan⟩ : HdrCreationItem).ExactlyOne ∨
      [Call.setEV (.num 3), Call.setEV (.num ⊤), Call.setAverageLuminance (.num 0)] ≠ [] :=
    Or.inr (List.cons_ne_nil _ _)
  have hcs : ∀ c ∈ [Call.setEV (.num 3), Call.setEV (.num ⊤),
      Call.setAverageLuminance (.num 0)], c.Admissible := by
    intro c hc
    simp only [List.mem_cons, List.mem_singleton, List.not_mem_nil, or_false] at hc
    rcases hc with rfl | rfl | rfl
    · exact fun h => FloatValue.noConfusion h
    · exact fun h => FloatValue.noConfusion h
    · right; exact le_refl (0 : EReal)
  ⟨h0, hcs, run_exactlyOne _ _ h0 hcs⟩

end HdrCreationItem

end FloatReading

/-! ### Theorems on multiplyChannels -/

set_option linter.unusedSectionVars false

section DriverLemmas

variable {F : Type} [Field F] [DecidableEq F] {VAM : Type}

theorem toInt32_of_lt (n : Nat) (h : n < 2147483648) : (toInt32 (n : Int)).toNat = n := by
  unfold toInt32
  omega

theorem toInt32_toNat_le (n : Nat) : (toInt32 (n : Int)).toNat ≤ n := by
  unfold toInt32
  omega

theorem multiplyChannels_of_wrap (X Y Z : Array2Df F) (m : F)
    (h : (toInt32 ((Y.getCols : Int) * (Y.getRows : Int))).toNat = 0) :
    multiplyChannels X Y Z m = some (X, Y, Z) := by
  unfold multiplyChannels
  simp only [h]
  rfl

theorem mulAt_split (c r : Nat) (pre post : List F) (x m : F) :
    (⟨c, r, pre ++ x :: post⟩ : Array2Df F).mulAt pre.length m
      = some ⟨c, r, pre ++ (x * m) :: post⟩ := by
  have hg : (pre ++ x :: post).get? pre.length = some x := by
    rw [List.get?_eq_getElem?, List.getElem?_append_right (le_refl _)]
    simp
  have hs : (pre ++ x :: post).set pre.length (x * m) = pre ++ (x * m) :: post := by simp
  unfold Array2Df.mulAt
  simp only [hg, hs]

theorem loop_split (m : F) (n i : Nat) :
    ∀ (cx rx cy ry cz rz : Nat) (preX midX postX preY midY postY preZ midZ postZ : List F),
      preX.length = i → preY.length = i → preZ.length = i →
      midX.length = n → midY.length = n → midZ.length = n →
      multiplyChannelsLoop m n i ⟨cx, rx, preX ++ midX ++ postX⟩
          ⟨cy, ry, preY ++ midY ++ postY⟩ ⟨cz, rz, preZ ++ midZ ++ postZ⟩
        = some (⟨cx, rx, preX ++ midX.map (fun v => v * m) ++ postX⟩,
                ⟨cy, ry, preY ++ midY.map (fun v => v * m) ++ postY⟩,
                ⟨cz, rz, preZ ++ midZ.map (fun v => v * m) ++ postZ⟩) := by
  induction n generalizing i with
  | zero =>
    intro cx rx cy ry cz rz preX midX postX preY midY postY preZ midZ postZ _ _ _ hx hy hz
    rw [List.length_eq_zero.mp hx, List.length_eq_zero.mp hy, List.length_eq_zero.mp hz]
    simp [multiplyChannelsLoop]
  | succ n ih =>
    intro cx rx cy ry cz rz preX midX postX preY midY postY preZ midZ postZ hpx hpy hpz hx hy hz
    obtain ⟨x, mx, rfl⟩ := List.exists_cons_of_length_eq_add_one hx
    obtain ⟨y, my, rfl⟩ := List.exists_cons_of_length_eq_add_one hy
    obtain ⟨z, mz, rfl⟩ := List.exists_cons_of_length_eq_add_one hz
    have ex : (⟨cx, rx, preX ++ x :: mx ++ postX⟩ : Array2Df F).mulAt i m
        = some ⟨cx, rx, (preX ++ [x * m]) ++ mx ++ postX⟩ := by
      have := mulAt_split cx rx preX (mx ++ postX) x m
      rw [hpx] at this
      simpa using this
    have ey : (⟨cy, ry, preY ++ y :: my ++ postY⟩ : Array2Df F).mulAt i m
        = some ⟨cy, ry, (preY ++ [y * m]) ++ my ++ postY⟩ := by
      have := mulAt_split cy ry preY (my ++ postY) y m
      rw [hpy] at this
      simpa using this
    have ez : (⟨cz, rz, preZ ++ z :: mz ++ postZ⟩ : Array2Df F).mulAt i m
        = some ⟨cz, rz, (preZ ++ [z * m]) ++ mz ++ postZ⟩ := by
      have := mulAt_split cz rz preZ (mz ++ postZ) z m
      rw [hpz] at this
      simpa using this
    rw [multiplyChannelsLoop, ex, ey, ez]
    simp only []
    rw [ih (i + 1) cx rx cy ry cz rz (preX ++ [x * m]) mx postX (preY ++ [y * m]) my postY
      (preZ ++ [z * m]) mz postZ (by simp [hpx]) (by simp [hpy]) (by simp [hpz])
      (by simpa using hx) (by simpa using hy) (by simpa using hz)]
    simp

theorem loop_initial (m : F) (n : Nat) (X Y Z : Array2Df F)
    (hx : n ≤ X.data.length) (hy : n ≤ Y.data.length) (hz : n ≤ Z.data.length) :
    multiplyChannelsLoop m n 0 X Y Z
      = some (⟨X.cols, X.rows, (X.data.take n).map (fun v => v * m) ++ X.data.drop n⟩,
              ⟨Y.cols, Y.rows, (Y.data.take n).map (fun v => v * m) ++ Y.data.drop n⟩,
              ⟨Z.cols, Z.rows, (Z.data.take n).map (fun v => v * m) ++ Z.data.drop n⟩) := by
  have h := loop_split m n 0 X.cols X.rows Y.cols Y.rows Z.cols Z.rows
    [] (X.data.take n) (X.data.drop n) [] (Y.data.take n) (Y.data.drop n)
    [] (Z.data.take n) (Z.data.drop n) rfl rfl rfl
    (by simp [hx]) (by simp [hy]) (by simp [hz])
  simpa using h

theorem multiplyChannels_scaled (X Y Z : Array2Df F) (m : F) (hs : SameSize X Y Z)
    (hint : Y.cols * Y.rows < 2147483648) :
    multiplyChannels X Y Z m = some (X.scaled m, Y.scaled m, Z.scaled m) := by
  obtain ⟨⟨hxc, hxr⟩, ⟨hzc, hzr⟩, sx, sy, sz⟩ := hs
  unfold Array2Df.StorageOk at sx sy sz
  have hn : (toInt32 ((Y.getCols : Int) * (Y.getRows : Int))).toNat = Y.cols * Y.rows := by
    have := toInt32_of_lt (Y.cols * Y.rows) hint
    simpa [Array2Df.getCols, Array2Df.getRows] using this
  unfold multiplyChannels
  simp only [hn]
  rw [loop_initial m (Y.cols * Y.rows) X Y Z (by rw [sx, hxc, hxr]) (by rw [sy])
    (by rw [sz, hzc, hzr])]
  have tx : X.data.take (Y.cols * Y.rows) = X.data := by
    apply List.take_of_length_le; rw [sx, hxc, hxr]
  have dx : X.data.drop (Y.cols * Y.rows) = [] := by
    apply List.drop_of_length_le; rw [sx, hxc, hxr]
  have ty : Y.data.take (Y.cols * Y.rows) = Y.data := by
    apply List.take_of_length_le; rw [sy]
  have dy : Y.data.drop (Y.cols * Y.rows) = [] := by
    apply List.drop_of_length_le; rw [sy]
  have tz : Z.data.take (Y.cols * Y.rows) = Z.data := by
    apply List.take_of_length_le; rw [sz, hzc, hzr]
  have dz : Z.data.drop (Y.cols * Y.rows) = [] := by
    apply List.drop_of_length_le; rw [sz, hzc, hzr]
  rw [tx, dx, ty, dy, tz, dz]
  simp [Array2Df.scaled]

theorem multiplyChannels_isSome (X Y Z : Array2Df F) (m : F) (hs : SameSize X Y Z) :
    (multiplyChannels X Y Z m).isSome = true := by
  obtain ⟨⟨hxc, hxr⟩, ⟨hzc, hzr⟩, sx, sy, sz⟩ := hs
  unfold Array2Df.StorageOk at sx sy sz
  have hn : (toInt32 ((Y.getCols : Int) * (Y.getRows : Int))).toNat ≤ Y.cols * Y.rows := by
    have := toInt32_toNat_le (Y.cols * Y.rows)
    simpa [Array2Df.getCols, Array2Df.getRows] using this
  unfold multiplyChannels
  simp only []
  rw [loop_initial m _ X Y Z (by rw [sx, hxc, hxr]; exact hn) (by rw [sy]; exact hn)
    (by rw [sz, hzc, hzr]; exact hn)]
  rfl

theorem preScale_some_of_sameSize (X Y Z : Array2Df F) (m : F) (hs : SameSize X Y Z) :
    ∃ Xr Yr Zr, preScale X Y Z m = some (Xr, Yr, Zr) := by
  unfold preScale
  by_cases hm : m = 1
  · exact ⟨X, Y, Z, by simp [hm]⟩
  · have h := multiplyChannels_isSome X Y Z m hs
    cases hr : multiplyChannels X Y Z m with
    | none => rw [hr] at h; cases h
    | some r => exact ⟨r.1, r.2.1, r.2.2, by simp [hm, hr]⟩

theorem pfstmo_with_eq_toneMap (lib : Externals F VAM) (td : Bool) (fps : F) (frame : Frame F)
    (X Y Z : Channel F) (Xr Yr Zr : Array2Df F) (local_ : Bool) (multiplier Acone Arod : F)
    (autolum : Bool) (ph : Progress)
    (hX : frame.X = some X) (hY : frame.Y = some Y) (hZ : frame.Z = some Z)
    (hp : preScale X.data Y.data Z.data multiplier = some (Xr, Yr, Zr)) :
    pfstmo_pattanaik00_with lib td fps frame local_ multiplier Acone Arod autolum ph
      = toneMap lib { frame with tags := frame.tags.setString "LUMINANCE" "RELATIVE" }
          X Y Z Xr Yr Zr
          (adaptationModel lib td fps lib.newModel local_ Acone Arod autolum Yr) local_ ph := by
  unfold pfstmo_pattanaik00_with
  simp only [hX, hY, hZ, Channel.getChannelData, hp]

theorem pfstmo_missing (lib : Externals F VAM) (td : Bool) (fps : F) (frame : Frame F)
    (local_ : Bool) (multiplier Acone Arod : F) (autolum : Bool) (ph : Progress)
    (h : frame.X = none ∨ frame.Y = none ∨ frame.Z = none) :
    pfstmo_pattanaik00_with lib td fps frame local_ multiplier Acone Arod autolum ph
      = .thrown "Missing X, Y, Z channels in the PFS stream"
          { frame with tags := frame.tags.setString "LUMINANCE" "RELATIVE" } ph := by
  unfold pfstmo_pattanaik00_with
  rcases frame with ⟨_ | X, _ | Y, _ | Z, tags⟩ <;> simp at h <;> rfl

theorem pfstmo_present_not_thrown (lib : Externals F VAM) (td : Bool) (fps : F)
    (frame : Frame F) (local_ : Bool) (multiplier Acone Arod : F) (autolum : Bool)
    (ph : Progress) (h : frame.X ≠ none ∧ frame.Y ≠ none ∧ frame.Z ≠ none)
    (what : String) (fr : Frame F) (p : Progress) :
    pfstmo_pattanaik00_with lib td fps frame local_ multiplier Acone Arod autolum ph
      ≠ .thrown what fr p := by
  rcases frame with ⟨_ | X, _ | Y, _ | Z, tags⟩ <;> simp at h
  unfold pfstmo_pattanaik00_with
  simp only []
  cases hp : preScale X.getChannelData Y.getChannelData Z.getChannelData multiplier with
  | none => intro hc; cases hc
  | some r =>
    obtain ⟨Xr, Yr, Zr⟩ := r
    intro hc
    simp only [toneMap] at hc
    cases hc

theorem toneMap_returns (lib : Externals F VAM) (frame : Frame F) (X Y Z : Channel F)
    (Xr Yr Zr : Array2Df F) (am : VAM) (local_ : Bool) (ph : Progress) :
    ∃ fr R G B,
      toneMap lib frame X Y Z Xr Yr Zr am local_ ph
        = .returned fr
            (if !(lib.tmo_pattanaik00 R G B Yr am local_ ph).2.2.2.canceled
              then (lib.tmo_pattanaik00 R G B Yr am local_ ph).2.2.2.setValue 100
              else (lib.tmo_pattanaik00 R G B Yr am local_ ph).2.2.2) ∧
      fr.tags = frame.tags := by
  let R0 : Array2Df F :=
    Array2Df.create (toInt32 (Y.getWidth : Int)) (toInt32 (Y.getHeight : Int))
  let rgb := lib.transformColorSpace .CS_XYZ Xr Yr Zr .CS_RGB R0 R0 R0
  exact ⟨_, rgb.1, rgb.2.1, rgb.2.2, rfl, rfl⟩

end DriverLemmas

/-! ### Theorems on the tag container -/

namespace TagContainer

theorem getString_setString_same (t : TagContainer) (key value : String) :
    (t.setString key value).getString key = some value := by
  simp [getString, setString]

theorem find_filter_other (t : TagContainer) (key k : String) (h : k ≠ key) :
    (t.filter (fun p => p.1 != key)).find? (fun p => p.1 == k)
      = t.find? (fun p => p.1 == k) := by
  induction t with
  | nil => rfl
  | cons a t ih =>
    by_cases ha : a.1 = key
    · have h1 : ¬ ((fun p : String × String => p.1 != key) a = true) := by simp [ha]
      have h2 : ¬ ((fun p : String × String => p.1 == k) a = true) := by
        simp only [beq_iff_eq, ha]
        exact fun e => h e.symm
      rw [@List.filter_cons_of_neg _ (fun p => p.1 != key) a t h1,
        @List.find?_cons_of_neg _ (fun p => p.1 == k) a t h2]
      exact ih
    · have h1 : (fun p : String × String => p.1 != key) a = true := by simp [ha]
      rw [@List.filter_cons_of_pos _ (fun p => p.1 != key) a t h1]
      by_cases hak : a.1 = k
      · have h2 : (fun p : String × String => p.1 == k) a = true := by simp [hak]
        rw [@List.find?_cons_of_pos _ (fun p => p.1 == k) a _ h2,
          @List.find?_cons_of_pos _ (fun p => p.1 == k) a _ h2]
      · have h2 : ¬ ((fun p : String × String => p.1 == k) a = true) := by simp [hak]
        rw [@List.find?_cons_of_neg _ (fun p => p.1 == k) a _ h2,
          @List.find?_cons_of_neg _ (fun p => p.1 == k) a _ h2]
        exact ih

theorem getString_setString_other (t : TagContainer) (key value k : String) (h : k ≠ key) :
    (t.setString key value).getString k = t.getString k := by
  unfold getString setString
  have hk : ¬ ((fun p : String × String => p.1 == k) (key, value) = true) := by
    simp only [beq_iff_eq]
    exact fun e => h e.symm
  rw [@List.find?_cons_of_neg _ (fun p => p.1 == k) (key, value) _ hk, find_filter_other t key k h]

end TagContainer

/-! ### Theorems on pfstmo_pattanaik00 -/

section DriverTheorems

variable {F : Type} [Field F] [DecidableEq F] {VAM : Type}

/-- C3: `pfstmo_pattanaik00` ends with the "Missing X, Y, Z channels" exception if
and only if at least one of the X, Y, Z channel pointers is null; with all three
present it raises no exception at all, for every value of `local`, `multiplier`,
`Acone`, `Arod` and `autolum`. -/
theorem missing_channels_exception_iff (lib : Externals F VAM) (frame : Frame F)
    (local_ : Bool) (multiplier Acone Arod : F) (autolum : Bool) (ph : Progress) :
    ((∃ fr p, pfstmo_pattanaik00 lib frame local_ multiplier Acone Arod autolum ph
          = .thrown "Missing X, Y, Z channels in the PFS stream" fr p)
        ↔ (frame.X = none ∨ frame.Y = none ∨ frame.Z = none)) ∧
    ((frame.X ≠ none ∧ frame.Y ≠ none ∧ frame.Z ≠ none) →
      ∀ what fr p, pfstmo_pattanaik00 lib frame local_ multiplier Acone Arod autolum ph
          ≠ .thrown what fr p) := by
  refine ⟨⟨?_, ?_⟩, ?_⟩
  · rintro ⟨fr, p, h⟩
    by_contra hn
    have hp : frame.X ≠ none ∧ frame.Y ≠ none ∧ frame.Z ≠ none := by
      refine ⟨fun e => hn (Or.inl e), fun e => hn (Or.inr (Or.inl e)),
        fun e => hn (Or.inr (Or.inr e))⟩
    exact pfstmo_present_not_thrown lib false 16 frame local_ multiplier Acone Arod autolum ph
      hp _ fr p h
  · intro h
    exact ⟨_, _, pfstmo_missing lib false 16 frame local_ multiplier Acone Arod autolum ph h⟩
  · intro hp what fr p
    exact pfstmo_present_not_thrown lib false 16 frame local_ multiplier Acone Arod autolum ph
      hp what fr p

/-- C4 (amended): when a channel is missing the call ends with the exception, the
three channel pointers and the progress handle are as before the call, the tag
LUMINANCE has the value RELATIVE and every other tag is as before the call. -/
theorem missing_channels_frame_effect (lib : Externals F VAM) (frame : Frame F)
    (local_ : Bool) (multiplier Acone Arod : F) (autolum : Bool) (ph : Progress)
    (h : frame.X = none ∨ frame.Y = none ∨ frame.Z = none) :
    ∃ fr, pfstmo_pattanaik00 lib frame local_ multiplier Acone Arod autolum ph
        = .thrown "Missing X, Y, Z channels in the PFS stream" fr ph ∧
      fr.X = frame.X ∧ fr.Y = frame.Y ∧ fr.Z = frame.Z ∧
      fr.tags.getString "LUMINANCE" = some "RELATIVE" ∧
      ∀ k, k ≠ "LUMINANCE" → fr.tags.getString k = frame.tags.getString k := by
  refine ⟨{ frame with tags := frame.tags.setString "LUMINANCE" "RELATIVE" },
    pfstmo_missing lib false 16 frame local_ multiplier Acone Arod autolum ph h,
    rfl, rfl, rfl, ?_, ?_⟩
  · exact TagContainer.getString_setString_same _ _ _
  · intro k hk
    exact TagContainer.getString_setString_other _ _ _ k hk

/-- C5 (amended): on a frame whose three channels satisfy the frame invariant and
whose pixel count `rows * cols` is below `2^31`, a multiplier other than one
makes the driver replace every stored value of X, Y and Z by its product with the
multiplier (the whole storage, value by value) and both the adaptation step and
the tone-mapping step receive the scaled arrays; with multiplier one they receive
the arrays as they are, on every frame. -/
theorem preScale_before_adaptation (lib : Externals F VAM) (frame : Frame F)
    (X Y Z : Channel F) (local_ : Bool) (multiplier Acone Arod : F) (autolum : Bool)
    (ph : Progress)
    (hX : frame.X = some X) (hY : frame.Y = some Y) (hZ : frame.Z = some Z) :
    (SameSize X.data Y.data Z.data → Y.data.cols * Y.data.rows < 2147483648 →
      multiplier ≠ 1 →
      multiplyChannels X.data Y.data Z.data multiplier
        = some (⟨X.data.cols, X.data.rows, X.data.data.map (fun v => v * multiplier)⟩,
                ⟨Y.data.cols, Y.data.rows, Y.data.data.map (fun v => v * multiplier)⟩,
                ⟨Z.data.cols, Z.data.rows, Z.data.data.map (fun v => v * multiplier)⟩) ∧
      (X.data.scaled multiplier).data.length = Y.data.rows * Y.data.cols ∧
      (∀ i, (X.data.scaled multiplier).data.get? i
              = (X.data.data.get? i).map (fun v => v * multiplier) ∧
            (Y.data.scaled multiplier).data.get? i
              = (Y.data.data.get? i).map (fun v => v * multiplier) ∧
            (Z.data.scaled multiplier).data.get? i
              = (Z.data.data.get? i).map (fun v => v * multiplier)) ∧
      pfstmo_pattanaik00 lib frame local_ multiplier Acone Arod autolum ph
        = toneMap lib { frame with tags := frame.tags.setString "LUMINANCE" "RELATIVE" }
            X Y Z (X.data.scaled multiplier) (Y.data.scaled multiplier)
            (Z.data.scaled multiplier)
            (adaptationModel lib false 16 lib.newModel local_ Acone Arod autolum
              (Y.data.scaled multiplier)) local_ ph) ∧
    (multiplier = 1 →
      pfstmo_pattanaik00 lib frame local_ multiplier Acone Arod autolum ph
        = toneMap lib { frame with tags := frame.tags.setString "LUMINANCE" "RELATIVE" }
            X Y Z X.data Y.data Z.data
            (adaptationModel lib false 16 lib.newModel local_ Acone Arod autolum Y.data)
            local_ ph) := by
  constructor
  · intro hs hint hm
    have hmc := multiplyChannels_scaled X.data Y.data Z.data multiplier hs hint
    refine ⟨hmc, ?_, ?_, ?_⟩
    · obtain ⟨⟨hxc, hxr⟩, -, sx, -, -⟩ := hs
      unfold Array2Df.StorageOk at sx
      simp only [Array2Df.scaled, List.length_map]
      rw [sx, hxc, hxr, Nat.mul_comm]
    · intro i
      simp [Array2Df.scaled]
    · apply pfstmo_with_eq_toneMap lib false 16 frame X Y Z _ _ _ local_ multiplier Acone Arod
        autolum ph hX hY hZ
      unfold preScale
      rw [if_pos hm, hmc]
  · intro hm
    apply pfstmo_with_eq_toneMap lib false 16 frame X Y Z _ _ _ local_ multiplier Acone Arod
      autolum ph hX hY hZ
    unfold preScale
    rw [if_neg (not_not.mpr hm)]

/-- C6: the adaptation model handed to `tmo_pattanaik00` follows the parameter
precedence: with `local` false and `autolum` false it is set from `Acone` and
`Arod`; with `local` false and `autolum` true it is set from the pre-scaled Y
array, whatever `Acone` and `Arod` are; with `local` true it is the fresh model
and `Acone`, `Arod` and `autolum` do not influence the call. -/
theorem adaptation_precedence (lib : Externals F VAM) (frame : Frame F)
    (X Y Z : Channel F) (Xr Yr Zr : Array2Df F) (multiplier Acone Arod : F)
    (ph : Progress)
    (hX : frame.X = some X) (hY : frame.Y = some Y) (hZ : frame.Z = some Z)
    (hp : preScale X.data Y.data Z.data multiplier = some (Xr, Yr, Zr)) :
    pfstmo_pattanaik00 lib frame false multiplier Acone Arod false ph
        = toneMap lib { frame with tags := frame.tags.setString "LUMINANCE" "RELATIVE" }
            X Y Z Xr Yr Zr (lib.setAdaptation lib.newModel Acone Arod) false ph ∧
    (∀ A R : F, pfstmo_pattanaik00 lib frame false multiplier A R true ph
        = toneMap lib { frame with tags := frame.tags.setString "LUMINANCE" "RELATIVE" }
            X Y Z Xr Yr Zr (lib.setAdaptationLum lib.newModel Yr) false ph) ∧
    (∀ (A R : F) (al : Bool), pfstmo_pattanaik00 lib frame true multiplier A R al ph
        = toneMap lib { frame with tags := frame.tags.setString "LUMINANCE" "RELATIVE" }
            X Y Z Xr Yr Zr lib.newModel true ph) := by
  refine ⟨?_, ?_, ?_⟩
  · exact pfstmo_with_eq_toneMap lib false 16 frame X Y Z Xr Yr Zr false multiplier Acone Arod
      false ph hX hY hZ hp
  · intro A R
    exact pfstmo_with_eq_toneMap lib false 16 frame X Y Z Xr Yr Zr false multiplier A R
      true ph hX hY hZ hp
  · intro A R al
    exact pfstmo_with_eq_toneMap lib false 16 frame X Y Z Xr Yr Zr true multiplier A R
      al ph hX hY hZ hp

/-- C7: on a frame with all three channels present and the frame invariant, the
call returns, the returned frame has the tag LUMINANCE with the value RELATIVE
whatever the tags and the parameters were, and every other tag is as before the
call. -/
theorem luminance_tag_relative (lib : Externals F VAM) (frame : Frame F)
    (X Y Z : Channel F) (local_ : Bool) (multiplier Acone Arod : F) (autolum : Bool)
    (ph : Progress)
    (hX : frame.X = some X) (hY : frame.Y = some Y) (hZ : frame.Z = some Z)
    (hs : SameSize X.data Y.data Z.data) :
    ∃ fr p, pfstmo_pattanaik00 lib frame local_ multiplier Acone Arod autolum ph
        = .returned fr p ∧
      fr.tags = frame.tags.setString "LUMINANCE" "RELATIVE" ∧
      fr.tags.getString "LUMINANCE" = some "RELATIVE" ∧
      ∀ k, k ≠ "LUMINANCE" → fr.tags.getString k = frame.tags.getString k := by
  obtain ⟨Xr, Yr, Zr, hp⟩ := preScale_some_of_sameSize X.data Y.data Z.data multiplier hs
  have h := pfstmo_with_eq_toneMap lib false 16 frame X Y Z Xr Yr Zr local_ multiplier Acone
    Arod autolum ph hX hY hZ hp
  refine ⟨_, _, h, rfl, ?_, ?_⟩
  · exact TagContainer.getString_setString_same _ _ _
  · intro k hk
    exact TagContainer.getString_setString_other _ _ _ k hk

/-- C8: on a frame with all three channels present and the frame invariant, the
call returns and its last action depends on the handle `ph1` left by
`tmo_pattanaik00`: when `ph1` is not cancelled the returned handle is
`ph1.setValue 100`, so 100 is the last value reported; when `ph1` is cancelled
the returned handle is `ph1` itself, the driver reports nothing. -/
theorem progress_100_iff_not_canceled (lib : Externals F VAM) (frame : Frame F)
    (X Y Z : Channel F) (local_ : Bool) (multiplier Acone Arod : F) (autolum : Bool)
    (ph : Progress)
    (hX : frame.X = some X) (hY : frame.Y = some Y) (hZ : frame.Z = some Z)
    (hs : SameSize X.data Y.data Z.data) :
    ∃ fr ph1 ph2, pfstmo_pattanaik00 lib frame local_ multiplier Acone Arod autolum ph
        = .returned fr ph2 ∧
      (∃ R G B Yr am, ph1 = (lib.tmo_pattanaik00 R G B Yr am local_ ph).2.2.2) ∧
      (ph1.canceled = false →
        ph2 = ph1.setValue 100 ∧ ph2.reported = ph1.reported ++ [100] ∧
        ph2.reported.getLast? = some 100) ∧
      (ph1.canceled = true → ph2 = ph1) := by
  obtain ⟨Xr, Yr, Zr, hp⟩ := preScale_some_of_sameSize X.data Y.data Z.data multiplier hs
  have h := pfstmo_with_eq_toneMap lib false 16 frame X Y Z Xr Yr Zr local_ multiplier Acone
    Arod autolum ph hX hY hZ hp
  obtain ⟨fr, R, G, B, ht, -⟩ := toneMap_returns lib
    { frame with tags := frame.tags.setString "LUMINANCE" "RELATIVE" } X Y Z Xr Yr Zr
    (adaptationModel lib false 16 lib.newModel local_ Acone Arod autolum Yr) local_ ph
  refine ⟨fr, (lib.tmo_pattanaik00 R G B Yr
    (adaptationModel lib false 16 lib.newModel local_ Acone Arod autolum Yr) local_ ph).2.2.2,
    _, h.trans ht, ⟨R, G, B, Yr, _, rfl⟩, ?_, ?_⟩
  · intro hc
    simp [hc, Progress.setValue]
  · intro hc
    simp [hc]

/-- C9: the driver never runs the time-dependent adaptation: its outcome is the
same whatever routine stands for `calculateAdaptation`, and the body run with
`timedependence = false` gives the same outcome for every value of `fps`, for
every combination of the parameters. -/
theorem time_dependent_branch_unreachable (lib : Externals F VAM)
    (g : VAM → Array2Df F → F → VAM) (fps : F) (frame : Frame F)
    (local_ : Bool) (multiplier Acone Arod : F) (autolum : Bool) (ph : Progress) :
    pfstmo_pattanaik00 { lib with calculateAdaptation := g } frame local_ multiplier Acone
        Arod autolum ph
      = pfstmo_pattanaik00 lib frame local_ multiplier Acone Arod autolum ph ∧
    pfstmo_pattanaik00_with lib false fps frame local_ multiplier Acone Arod autolum ph
      = pfstmo_pattanaik00 lib frame local_ multiplier Acone Arod autolum ph ∧
    (∀ (am : VAM) (Yr : Array2Df F),
      adaptationModel lib false fps am local_ Acone Arod autolum Yr
        = if local_ then am
          else if autolum then lib.setAdaptationLum am Yr
          else lib.setAdaptation am Acone Arod) := by
  refine ⟨?_, ?_, ?_⟩
  · unfold pfstmo_pattanaik00 pfstmo_pattanaik00_with adaptationModel toneMap
    rfl
  · unfold pfstmo_pattanaik00 pfstmo_pattanaik00_with adaptationModel
    rfl
  · intro am Yr
    unfold adaptationModel
    cases local_ <;> cases autolum <;> rfl

end DriverTheorems

/-! ### Concrete runs -/

/-- Witness of `missing_channels_exception_iff`: the frame without Z raises the
exception, the frame with X, Y, Z raises none. -/
theorem missing_channels_exception_iff_witness :
    (frameXY.X = none ∨ frameXY.Y = none ∨ frameXY.Z = none) ∧
    (∃ fr p, pfstmo_pattanaik00 traceLib frameXY false 2 7 8 false ph0
        = .thrown "Missing X, Y, Z channels in the PFS stream" fr p) ∧
    (frameXYZ.X ≠ none ∧ frameXYZ.Y ≠ none ∧ frameXYZ.Z ≠ none) ∧
    (∀ what fr p, pfstmo_pattanaik00 traceLib frameXYZ false 2 7 8 false ph0
        ≠ .thrown what fr p) :=
  have h1 : frameXY.X = none ∨ frameXY.Y = none ∨ frameXY.Z = none := by decide
  have h2 : frameXYZ.X ≠ none ∧ frameXYZ.Y ≠ none ∧ frameXYZ.Z ≠ none := by decide
  ⟨h1, (missing_channels_exception_iff traceLib frameXY false 2 7 8 false ph0).1.mpr h1,
    h2, (missing_channels_exception_iff traceLib frameXYZ false 2 7 8 false ph0).2 h2⟩

/-- C4 (as stated, refuted): the call on the frame without Z ends with the
exception and leaves a tag map in which LUMINANCE is bound, while it was not
bound before the call. -/
theorem missing_channels_changes_tags :
    pfstmo_pattanaik00 traceLib frameXY false 2 7 8 false ph0
      = .thrown "Missing X, Y, Z channels in the PFS stream"
          { frameXY with tags := [("LUMINANCE", "RELATIVE"), ("FILE", "a.hdr")] } ph0 ∧
    frameXY.tags = [("FILE", "a.hdr")] ∧
    frameXY.tags.getString "LUMINANCE" = none ∧
    TagContainer.getString [("LUMINANCE", "RELATIVE"), ("FILE", "a.hdr")] "LUMINANCE"
      = some "RELATIVE" := by
  refine ⟨by decide!, by decide, by decide, by decide⟩

/-- Witness of `missing_channels_frame_effect` on the frame without Z. -/
theorem missing_channels_frame_effect_witness :
    (frameXY.X = none ∨ frameXY.Y = none ∨ frameXY.Z = none) ∧
    ∃ fr, pfstmo_pattanaik00 traceLib frameXY false 2 7 8 false ph0
        = .thrown "Missing X, Y, Z channels in the PFS stream" fr ph0 ∧
      fr.X = frameXY.X ∧ fr.Y = frameXY.Y ∧ fr.Z = frameXY.Z ∧
      fr.tags.getString "LUMINANCE" = some "RELATIVE" ∧
      ∀ k, k ≠ "LUMINANCE" → fr.tags.getString k = frameXY.tags.getString k :=
  have h1 : frameXY.X = none ∨ frameXY.Y = none ∨ frameXY.Z = none := by decide
  ⟨h1, missing_channels_frame_effect traceLib frameXY false 2 7 8 false ph0 h1⟩

/-- C5 (as stated, refuted): on a 65536 by 32768 frame that satisfies the frame
invariant the `int` bound of `multiplyChannels` wraps to `-2^31`, the loop body
never runs, and with multiplier 2 the adaptation and tone-mapping steps receive
the arrays unscaled: the first Y value handed on is 1, not 2. -/
theorem preScale_skipped_on_wide_frame :
    SameSize widePlane widePlane widePlane ∧
    (2 : ℚ) ≠ 1 ∧
    toInt32 ((widePlane.getCols : Int) * (widePlane.getRows : Int)) = -2147483648 ∧
    multiplyChannels widePlane widePlane widePlane 2
      = some (widePlane, widePlane, widePlane) ∧
    widePlane.data.get? 0 = some 1 ∧
    (widePlane.scaled 2).data.get? 0 = some 2 ∧
    pfstmo_pattanaik00 traceLib wideFrame false 2 7 8 true ph0
      = toneMap traceLib
          { wideFrame with tags := wideFrame.tags.setString "LUMINANCE" "RELATIVE" }
          ⟨"X", widePlane⟩ ⟨"Y", widePlane⟩ ⟨"Z", widePlane⟩
          widePlane widePlane widePlane (TraceModel.fromLuminance widePlane) false ph0 := by
  have hw : toInt32 ((widePlane.getCols : Int) * (widePlane.getRows : Int))
      = -2147483648 := by
    simp only [widePlane, Array2Df.getCols, Array2Df.getRows, toInt32]
    norm_num
  have hmc : multiplyChannels widePlane widePlane widePlane (2 : ℚ)
      = some (widePlane, widePlane, widePlane) :=
    multiplyChannels_of_wrap widePlane widePlane widePlane 2 (by rw [hw]; rfl)
  have hst : widePlane.StorageOk := by
    simp only [Array2Df.StorageOk, widePlane, List.length_replicate]
  have hm : (2 : ℚ) ≠ 1 := by norm_num
  refine ⟨⟨⟨rfl, rfl⟩, ⟨rfl, rfl⟩, hst, hst, hst⟩, hm, hw, hmc, ?_, ?_, ?_⟩
  · show (List.replicate 2147483648 (1 : ℚ)).get? 0 = some 1
    rw [List.get?_eq_getElem?, List.getElem?_replicate, if_pos (by norm_num)]
  · show ((List.replicate 2147483648 (1 : ℚ)).map (fun v => v * 2)).get? 0 = some 2
    rw [List.get?_eq_getElem?, List.getElem?_map, List.getElem?_replicate,
      if_pos (by norm_num)]
    show some ((1 : ℚ) * 2) = some 2
    norm_num
  · apply pfstmo_with_eq_toneMap traceLib false 16 wideFrame ⟨"X", widePlane⟩
      ⟨"Y", widePlane⟩ ⟨"Z", widePlane⟩ widePlane widePlane widePlane false 2 7 8 true ph0
      rfl rfl rfl
    unfold preScale
    rw [if_pos hm]
    exact hmc

/-- Witness of `preScale_before_adaptation`: the 2 by 1 frame with multiplier 2
comes back with every value doubled, and with multiplier 1 with every value as
it was (the sample externals pass values through). -/
theorem preScale_before_adaptation_witness :
    (frameXYZ.X = some (plane "X" 1 2) ∧ frameXYZ.Y = some (plane "Y" 3 4) ∧
      frameXYZ.Z = some (plane "Z" 5 6)) ∧
    SameSize (plane "X" 1 2).data (plane "Y" 3 4).data (plane "Z" 5 6).data ∧
    (plane "Y" 3 4).data.cols * (plane "Y" 3 4).data.rows < 2147483648 ∧
    (2 : ℚ) ≠ 1 ∧
    pfstmo_pattanaik00 traceLib frameXYZ false 2 7 8 false ph0
      = .returned ⟨some (plane "X" 2 4), some (plane "Y" 6 8), some (plane "Z" 10 12),
          [("LUMINANCE", "RELATIVE"), ("FILE", "a.hdr")]⟩ ⟨false, [50, 100]⟩ ∧
    (1 : ℚ) = 1 ∧
    pfstmo_pattanaik00 traceLib frameXYZ false 1 7 8 false ph0
      = .returned ⟨some (plane "X" 1 2), some (plane "Y" 3 4), some (plane "Z" 5 6),
          [("LUMINANCE", "RELATIVE"), ("FILE", "a.hdr")]⟩ ⟨false, [50, 100]⟩ :=
  have hs : SameSize (plane "X" 1 2).data (plane "Y" 3 4).data (plane "Z" 5 6).data := by
    decide
  have hint : (plane "Y" 3 4).data.cols * (plane "Y" 3 4).data.rows < 2147483648 := by
    decide
  have hm : (2 : ℚ) ≠ 1 := by decide!
  ⟨⟨rfl, rfl, rfl⟩, hs, hint, hm,
    ((preScale_before_adaptation traceLib frameXYZ (plane "X" 1 2) (plane "Y" 3 4)
      (plane "Z" 5 6) false 2 7 8 false ph0 rfl rfl rfl).1 hs hint hm).2.2.2.trans
      (by decide!),
    rfl,
    ((preScale_before_adaptation traceLib frameXYZ (plane "X" 1 2) (plane "Y" 3 4)
      (plane "Z" 5 6) false 1 7 8 false ph0 rfl rfl rfl).2 rfl).trans (by decide!)⟩

/-- Witness of `adaptation_precedence` on the 2 by 1 frame with multiplier 2: the
model handed over is the explicit one, the one from the doubled Y array, or the
fresh one. -/
theorem adaptation_precedence_witness :
    (frameXYZ.X = some (plane "X" 1 2) ∧ frameXYZ.Y = some (plane "Y" 3 4) ∧
      frameXYZ.Z = some (plane "Z" 5 6)) ∧
    preScale (plane "X" 1 2).data (plane "Y" 3 4).data (plane "Z" 5 6).data (2 : ℚ)
      = some (⟨2, 1, [2, 4]⟩, ⟨2, 1, [6, 8]⟩, ⟨2, 1, [10, 12]⟩) ∧
    pfstmo_pattanaik00 traceLib frameXYZ false 2 7 8 false ph0
      = toneMap traceLib
          { frameXYZ with tags := frameXYZ.tags.setString "LUMINANCE" "RELATIVE" }
          (plane "X" 1 2) (plane "Y" 3 4) (plane "Z" 5 6)
          ⟨2, 1, [2, 4]⟩ ⟨2, 1, [6, 8]⟩ ⟨2, 1, [10, 12]⟩ (TraceModel.explicit 7 8) false ph0 ∧
    (∀ A R : ℚ, pfstmo_pattanaik00 traceLib frameXYZ false 2 A R true ph0
      = toneMap traceLib
          { frameXYZ with tags := frameXYZ.tags.setString "LUMINANCE" "RELATIVE" }
          (plane "X" 1 2) (plane "Y" 3 4) (plane "Z" 5 6)
          ⟨2, 1, [2, 4]⟩ ⟨2, 1, [6, 8]⟩ ⟨2, 1, [10, 12]⟩
          (TraceModel.fromLuminance ⟨2, 1, [6, 8]⟩) false ph0) ∧
    (∀ (A R : ℚ) (al : Bool), pfstmo_pattanaik00 traceLib frameXYZ true 2 A R al ph0
      = toneMap traceLib
          { frameXYZ with tags := frameXYZ.tags.setString "LUMINANCE" "RELATIVE" }
          (plane "X" 1 2) (plane "Y" 3 4) (plane "Z" 5 6)
          ⟨2, 1, [2, 4]⟩ ⟨2, 1, [6, 8]⟩ ⟨2, 1, [10, 12]⟩ TraceModel.fresh true ph0) :=
  have hp : preScale (plane "X" 1 2).data (plane "Y" 3 4).data (plane "Z" 5 6).data (2 : ℚ)
      = some (⟨2, 1, [2, 4]⟩, ⟨2, 1, [6, 8]⟩, ⟨2, 1, [10, 12]⟩) := by decide!
  ⟨⟨rfl, rfl, rfl⟩, hp,
    adaptation_precedence traceLib frameXYZ (plane "X" 1 2) (plane "Y" 3 4) (plane "Z" 5 6)
      ⟨2, 1, [2, 4]⟩ ⟨2, 1, [6, 8]⟩ ⟨2, 1, [10, 12]⟩ 2 7 8 ph0 rfl rfl rfl hp⟩

/-- Witness of `luminance_tag_relative` on the 2 by 1 frame. -/
theorem luminance_tag_relative_witness :
    (frameXYZ.X = some (plane "X" 1 2) ∧ frameXYZ.Y = some (plane "Y" 3 4) ∧
      frameXYZ.Z = some (plane "Z" 5 6)) ∧
    SameSize (plane "X" 1 2).data (plane "Y" 3 4).data (plane "Z" 5 6).data ∧
    ∃ fr p, pfstmo_pattanaik00 traceLib frameXYZ true 2 7 8 true ph0 = .returned fr p ∧
      fr.tags = frameXYZ.tags.setString "LUMINANCE" "RELATIVE" ∧
      fr.tags.getString "LUMINANCE" = some "RELATIVE" ∧
      ∀ k, k ≠ "LUMINANCE" → fr.tags.getString k = frameXYZ.tags.getString k :=
  have hs : SameSize (plane "X" 1 2).data (plane "Y" 3 4).data (plane "Z" 5 6).data := by
    decide
  ⟨⟨rfl, rfl, rfl⟩, hs,
    luminance_tag_relative traceLib frameXYZ (plane "X" 1 2) (plane "Y" 3 4) (plane "Z" 5 6)
      true 2 7 8 true ph0 rfl rfl rfl hs⟩

/-- Witness of `progress_100_iff_not_canceled` on the 2 by 1 frame, once with a
handle that is not cancelled and once with a cancelled one. -/
theorem progress_100_iff_not_canceled_witness :
    (frameXYZ.X = some (plane "X" 1 2) ∧ frameXYZ.Y = some (plane "Y" 3 4) ∧
      frameXYZ.Z = some (plane "Z" 5 6)) ∧
    SameSize (plane "X" 1 2).data (plane "Y" 3 4).data (plane "Z" 5 6).data ∧
    (∃ fr ph1 ph2, pfstmo_pattanaik00 traceLib frameXYZ false 2 7 8 false ph0
        = .returned fr ph2 ∧
      (∃ R G B Yr am, ph1 = (traceLib.tmo_pattanaik00 R G B Yr am false ph0).2.2.2) ∧
      (ph1.canceled = false →
        ph2 = ph1.setValue 100 ∧ ph2.reported = ph1.reported ++ [100] ∧
        ph2.reported.getLast? = some 100) ∧
      (ph1.canceled = true → ph2 = ph1)) ∧
    (∃ fr ph1 ph2, pfstmo_pattanaik00 traceLib frameXYZ false 2 7 8 false ⟨true, []⟩
        = .returned fr ph2 ∧
      (∃ R G B Yr am, ph1 = (traceLib.tmo_pattanaik00 R G B Yr am false ⟨true, []⟩).2.2.2) ∧
      (ph1.canceled = false →
        ph2 = ph1.setValue 100 ∧ ph2.reported = ph1.reported ++ [100] ∧
        ph2.reported.getLast? = some 100) ∧
      (ph1.canceled = true → ph2 = ph1)) :=
  have hs : SameSize (plane "X" 1 2).data (plane "Y" 3 4).data (plane "Z" 5 6).data := by
    decide
  ⟨⟨rfl, rfl, rfl⟩, hs,
    progress_100_iff_not_canceled traceLib frameXYZ (plane "X" 1 2) (plane "Y" 3 4)
      (plane "Z" 5 6) false 2 7 8 false ph0 rfl rfl rfl hs,
    progress_100_iff_not_canceled traceLib frameXYZ (plane "X" 1 2) (plane "Y" 3 4)
      (plane "Z" 5 6) false 2 7 8 false ⟨true, []⟩ rfl rfl rfl hs⟩

/-- Concrete runs behind C8: without cancellation the reported values end with
100, with a cancelled handle 100 is not reported. -/
theorem progress_runs :
    pfstmo_pattanaik00 traceLib frameXYZ false 1 7 8 false ph0
      = .returned
          { frameXYZ with tags := [("LUMINANCE", "RELATIVE"), ("FILE", "a.hdr")] }
          ⟨false, [50, 100]⟩ ∧
    pfstmo_pattanaik00 traceLib frameXYZ false 1 7 8 false ⟨true, []⟩
      = .returned
          { frameXYZ with tags := [("LUMINANCE", "RELATIVE"), ("FILE", "a.hdr")] }
          ⟨true, [50]⟩ := by
  constructor <;> decide!

end LuminanceHDR
